import Mathlib

/-!
Verification of the authorization subsystem and todo handlers of the
`mahdi-todo-backend` repository, shallowly embedded from `src/auth.py`,
`src/app.py` and `src/models.py`.

Python values observable by the embedded code (decoded JWT payloads,
request JSON bodies) are modelled by the inductive `JVal`; Python
exceptions are modelled by explicit error results (`Except`, dedicated
outcome types); network effects (the JWKS fetch in `verify_decode_jwt`)
are reified as an explicit `FetchResult` argument plus an event trace.
-/

set_option autoImplicit false
set_option linter.unusedVariables false
set_option linter.unnecessarySeqFocus false

namespace TodoBackend

/-- A JSON-like Python value: the payloads produced by `json.loads` /
`jwt.decode` and the request bodies produced by `request.json`.
Objects are association lists in insertion order. -/
inductive JVal where
  | null
  | bool (b : Bool)
  | int (n : Int)
  | str (s : String)
  | arr (xs : List JVal)
  | obj (kvs : List (String × JVal))

/-- Python truthiness of a `JVal` (`bool(v)`): `None`, `False`, `0`, `""`,
`[]` and `\x7b\x7d` are falsy, everything else is truthy. -/
def JVal.truthy : JVal → Bool
  | .null => false
  | .bool b => b
  | .int n => n != 0
  | .str s => s != ""
  | .arr xs => !xs.isEmpty
  | .obj kvs => !kvs.isEmpty

/-- `AuthError` from `src/auth.py`: a reason string plus an HTTP-style
status code. -/
structure AuthError where
  error : String
  status_code : Nat
  deriving Repr, DecidableEq

/-- A decoded JWT payload (`Mapping` in the Python source). -/
abbrev Claims := List (String × JVal)

/-- `payload.get(k)` on a JSON-derived mapping.  Returns the Python value
the source observes: `none` models Python `None`, which `dict.get`
produces both when the key is absent and when the stored value is JSON
`null` — the source cannot distinguish the two. -/
def jsonGet (kvs : List (String × JVal)) (k : String) : Option JVal :=
  match (kvs.find? (fun kv => kv.1 == k)).map (fun kv => kv.2) with
  | some JVal.null => none
  | r => r

/-- Whether the first list is an initial segment of the second. -/
def listStartsWith : List Char → List Char → Bool
  | [], _ => true
  | _ :: _, [] => false
  | a :: as, b :: bs => a == b && listStartsWith as bs

/-- Whether the first list occurs as a contiguous segment of the second. -/
def listContainsSub (needle : List Char) : List Char → Bool
  | [] => needle.isEmpty
  | c :: rest => listStartsWith needle (c :: rest) || listContainsSub needle rest

/-- Python `needle in haystack` for two strings: contiguous substring
containment. -/
def pyInStr (needle haystack : String) : Bool :=
  listContainsSub needle.data haystack.data

/-- Python `s == v` where `s` is a `str` and `v` an arbitrary value: a
string compares equal only to an equal string, never to a value of
another type. -/
def pyEqStr (s : String) : JVal → Bool
  | .str t => s == t
  | _ => false

/-- Python `s in v` for a string `s` and arbitrary `v`: substring test on
strings, element equality on lists, key membership on dicts; `none`
models the `TypeError` Python raises for non-container values. -/
def pyIn (s : String) : JVal → Option Bool
  | .str h => some (pyInStr s h)
  | .arr xs => some (xs.any (pyEqStr s))
  | .obj kvs => some (kvs.any (fun kv => kv.1 == s))
  | _ => none

/-- A Python exception escaping the checking functions: either the
source's `AuthError` or a built-in `TypeError`. -/
inductive PyErr where
  | auth (e : AuthError)
  | typeErr (msg : String)
  deriving Repr, DecidableEq

/-- `check_permissions(permission, payload)` from `src/auth.py` lines
42-57, translated clause by clause: `payload.get('permissions')` is
`None` → `AuthError('Permissions missing from payload', 401)`;
`permission not in payload_permissions` → `AuthError` naming the
permission; otherwise `True`. -/
def check_permissions (permission : String) (payload : Claims) : Except PyErr Bool :=
  match jsonGet payload "permissions" with
  | none => .error (.auth ⟨"Permissions missing from payload", 401⟩)
  | some v =>
    match pyIn permission v with
    | none => .error (.typeErr "argument of type is not a container")
    | some false => .error (.auth ⟨s!"Payload does not include the {permission} permission", 401⟩)
    | some true => .ok true

/-- `check_user_id(user_id, payload)` from `src/auth.py` lines 60-75:
`payload.get('sub')` is `None` → `AuthError('Subject missing from
payload', 401)`; `user_id != payload_subject` → `AuthError` naming the
user id; otherwise `True`. -/
def check_user_id (user_id : String) (payload : Claims) : Except AuthError Bool :=
  match jsonGet payload "sub" with
  | none => .error ⟨"Subject missing from payload", 401⟩
  | some v =>
    if pyEqStr user_id v then .ok true
    else .error ⟨s!"Request is not autheticated by user with id \"{user_id}\"", 401⟩

/-- Python `str.lower()` (ASCII case folding, which is all the source
compares). -/
def strLower (s : String) : String :=
  ⟨s.data.map Char.toLower⟩

/-- Werkzeug/Flask `request.headers.get(name)`: case-insensitive lookup
of a header name in the request's header list. -/
def headersGet (headers : List (String × String)) (name : String) : Option String :=
  (headers.find? (fun kv => strLower kv.1 == strLower name)).map (fun kv => kv.2)

/-- Split a character list at every whitespace character, keeping empty
fragments. -/
def splitWs : List Char → List (List Char)
  | [] => [[]]
  | c :: rest =>
    let r := splitWs rest
    if c.isWhitespace then [] :: r
    else
      match r with
      | [] => [[c]]
      | w :: ws => (c :: w) :: ws

/-- Python `str.split()` with no separator: split on runs of whitespace,
discarding empty fragments. -/
def pySplit (s : String) : List String :=
  ((splitWs s.data).map (fun l => String.mk l)).filter (fun t => t != "")

/-- Python `a or b` on two optional strings: `a` when it is truthy (a
non-empty string), otherwise `b`. -/
def pyOrOptStr (a b : Option String) : Option String :=
  match a with
  | some s => if s != "" then some s else b
  | none => b

/-- `get_token_auth_header()` from `src/auth.py` lines 26-39:
`request.headers.get('Authorization') or request.headers.get('authorization')`,
`None` → `AuthError('Authorization header missing', 401)`; a value not
splitting into exactly two whitespace-separated parts with first part
lowercasing to `bearer` → `AuthError('Malformed Authorization header',
401)`; otherwise the second part. -/
def get_token_auth_header (headers : List (String × String)) : Except AuthError String :=
  match pyOrOptStr (headersGet headers "Authorization") (headersGet headers "authorization") with
  | none => .error ⟨"Authorization header missing", 401⟩
  | some header =>
    match pySplit header with
    | [scheme, credential] =>
      if strLower scheme == "bearer" then .ok credential
      else .error ⟨"Malformed Authorization header", 401⟩
    | _ => .error ⟨"Malformed Authorization header", 401⟩

/-- A raw JWT credential string. -/
abbrev Token := String

/-- One JWKS key record (a JSON object, opaque to the source's own logic). -/
abbrev Key := JVal

/-- The `jose` library's `jwt.decode(token, algorithms=..., audience=...,
key=...)`: an abstract verification primitive returning the decoded
claims when signature, allowed-algorithm restriction and audience all
check out against the given key, and `none` (a `JWTError`) otherwise. -/
abbrev Decoder := Token → List String → String → Key → Option Claims

/-- `ALGORITHMS = [os.environ['AUTH0_SIGNING_ALGORITHM'] or 'RS256']`
from `src/auth.py` line 11: always a one-element list. -/
def ALGORITHMS (envAlg : String) : List String :=
  [if envAlg != "" then envAlg else "RS256"]

/-- Outcome of `urlopen` on the JWKS endpoint plus `json.loads`: either
the `keys` array, or a transport-level failure (network error, bad
JSON). -/
inductive FetchResult where
  | ok (keys : List Key)
  | failure (e : String)

/-- What a call of `verify_decode_jwt` can do: return decoded claims,
raise `AuthError`, or let a transport-level error escape unwrapped. -/
inductive VerifyOutcome where
  | claims (c : Claims)
  | authError (e : AuthError)
  | transportError (e : String)

/-- The `for key in keys` loop of `verify_decode_jwt` (`src/auth.py`
lines 89-95): try each key in sequence, return the first successful
decode, swallow `JWTError`s, and raise `AuthError('Invalid token', 401)`
when the keys are exhausted. -/
def tryKeys (decode : Decoder) (algorithms : List String) (audience : String) (token : Token) :
    List Key → Except AuthError Claims
  | [] => .error ⟨"Invalid token", 401⟩
  | key :: rest =>
    match decode token algorithms audience key with
    | some claims => .ok claims
    | none => tryKeys decode algorithms audience token rest

/-- `verify_decode_jwt(token)` from `src/auth.py` lines 78-95, with the
JWKS fetch reified as a `FetchResult` argument: a fetch failure escapes
unwrapped, otherwise the keys are tried in sequence. -/
def verify_decode_jwt (decode : Decoder) (envAlg audience : String)
    (fetchResult : FetchResult) (token : Token) : VerifyOutcome :=
  match fetchResult with
  | .failure e => .transportError e
  | .ok keys =>
    match tryKeys decode (ALGORITHMS envAlg) audience token keys with
    | .ok c => .claims c
    | .error e => .authError e

/-- Steps a request can take through the `requires_auth_permission`
guard, in the order the source performs them. -/
inductive AuthEvent where
  | tokenExtracted
  | keySetFetched
  | tokenVerified
  | permissionChecked
  | handlerInvoked
  deriving Repr, DecidableEq

/-- Result of running a guarded endpoint: the wrapped handler's value, or
one of the three kinds of escaping Python exception. -/
inductive GuardResult (α : Type) where
  | ok (a : α)
  | authError (e : AuthError)
  | transportError (e : String)
  | typeErr (msg : String)

/-- The wrapper produced by `requires_auth_permission(permission)`
(`src/auth.py` lines 98-117) applied to a request: extract the token,
verify it (the sole step consuming the key-set fetch), check the
permission, then call the wrapped handler with the decoded claims
prepended.  Besides the result it records the trace of steps performed:
`keySetFetched` is recorded as soon as verification starts (the source
opens the JWKS URL before anything else in `verify_decode_jwt`). -/
def requires_auth_permission {α : Type} (permission : String) (decode : Decoder)
    (envAlg audience : String) (fetchResult : FetchResult) (f : Claims → α)
    (headers : List (String × String)) : GuardResult α × List AuthEvent :=
  match get_token_auth_header headers with
  | .error e => (.authError e, [])
  | .ok token =>
    match verify_decode_jwt decode envAlg audience fetchResult token with
    | .transportError e => (.transportError e, [.tokenExtracted, .keySetFetched])
    | .authError e => (.authError e, [.tokenExtracted, .keySetFetched])
    | .claims payload =>
      match check_permissions permission payload with
      | .error (.auth e) => (.authError e, [.tokenExtracted, .keySetFetched, .tokenVerified])
      | .error (.typeErr m) => (.typeErr m, [.tokenExtracted, .keySetFetched, .tokenVerified])
      | .ok _ =>
        (.ok (f payload),
         [.tokenExtracted, .keySetFetched, .tokenVerified, .permissionChecked, .handlerInvoked])

/-- The wrapper produced by `requires_auth_user()` (`src/auth.py` lines
120-141): takes the decoded claims (first positional argument, produced
by the enclosing `requires_auth_permission` guard) and the `user_id`
keyword argument, runs `check_user_id`, then calls the wrapped handler
with the same arguments. -/
def requires_auth_user {β : Type} (f : Claims → String → β)
    (payload : Claims) (user_id : String) : Except AuthError β :=
  match check_user_id user_id payload with
  | .error e => .error e
  | .ok _ => .ok (f payload user_id)

/-- The `AuthError` Flask error handler `handle_401` (`src/app.py` lines
261-266): a fixed JSON body and status 401, independent of the error. -/
def handle_401 (error : AuthError) : JVal × Nat :=
  (.obj [("success", .bool false), ("message", .str "Not authorized")], 401)

/-- A row of the `todos` table (`src/models.py`).  `title` and `done` are
typed as Python values because the PATCH handler assigns whatever the
request JSON supplied before persisting. -/
structure Todo where
  id : Nat
  owner_id : String
  title : JVal
  done : JVal

/-- The todos table, in row order. -/
abbrev TodoDb := List Todo

/-- `Todo.query.get(todo_id)`: primary-key lookup. -/
def todoGet (db : TodoDb) (todo_id : Nat) : Option Todo :=
  db.find? (fun t => t.id == todo_id)

/-- Modelled from the spec: the ORM persistence layer is an external
collaborator (`src/models.py` does not define `Todo.persist` even though
`src/app.py` calls it); committing a mutated object writes it back to
its row, located by primary key. -/
def todoPersist (db : TodoDb) (t : Todo) : TodoDb :=
  db.map (fun u => if u.id == t.id then t else u)

/-- Modelled from the spec: the ORM persistence layer is an external
collaborator (`src/models.py` does not define `Todo.delete` even though
`src/app.py` calls it); deleting an object removes its row, located by
primary key. -/
def todoDelete (db : TodoDb) (t : Todo) : TodoDb :=
  db.filter (fun u => u.id != t.id)

/-- Python `a or b` where `a` is an optional JSON value and `b` a JSON
value: `a` when present and truthy, else `b`.  This is the
falsy-coalescing merge the PATCH handler uses. -/
def pyOrJ (a : Option JVal) (b : JVal) : JVal :=
  match a with
  | some v => if v.truthy then v else b
  | none => b

/-- `Todo.json` from `src/models.py` lines 128-139. -/
def Todo.json (t : Todo) : JVal :=
  .obj [("id", .int t.id), ("title", t.title), ("done", t.done)]

/-- Outcome of a todo handler body: the HTTP status, the todos table
after the request, and the JSON body for successful responses (`abort`
paths carry no body of their own). -/
structure HandlerResult where
  status : Nat
  db : TodoDb
  body : Option JVal

/-- `patch_todo(token_payload, user_id, todo_id)` from `src/app.py`
lines 196-229, the handler body behind the guards: look the todo up by
`todo_id` alone, 404 when absent, 415 when there is no JSON body, 400
when the body is not an object or sets neither field, otherwise merge
`title` and `done` with Python `or` and persist.  `user_id` is accepted
but never compared with the todo's `owner_id`. -/
def patch_todo (db : TodoDb) (user_id : String) (todo_id : Nat)
    (reqJson : Option JVal) : HandlerResult :=
  match todoGet db todo_id with
  | none => ⟨404, db, none⟩
  | some todo =>
    match reqJson with
    | none => ⟨415, db, none⟩
    | some (.obj body) =>
      let new_title := jsonGet body "title"
      let new_done := jsonGet body "done"
      if new_title.isNone && new_done.isNone then ⟨400, db, none⟩
      else
        let todo2 : Todo :=
          { todo with title := pyOrJ new_title todo.title, done := pyOrJ new_done todo.done }
        ⟨200, todoPersist db todo2,
         some (.obj [("success", .bool true), ("user_id", .str todo2.owner_id),
                     ("todo", todo2.json)])⟩
    | some _ => ⟨400, db, none⟩

/-- `delete_todo(token_payload, user_id, todo_id)` from `src/app.py`
lines 232-250: look the todo up by `todo_id` alone (`or abort(404)`),
delete it, 200 on success.  `user_id` is accepted but never compared
with the todo's `owner_id`. -/
def delete_todo (db : TodoDb) (user_id : String) (todo_id : Nat) : HandlerResult :=
  match todoGet db todo_id with
  | none => ⟨404, db, none⟩
  | some todo =>
    ⟨200, todoDelete db todo, some (.obj [("success", .bool true)])⟩

/-- The decorator stack on the todo write endpoints
(`@requires_auth_permission('write:own-todos')` outside
`@requires_auth_user()`, `src/app.py` lines 196-198 and 232-234):
the permission guard runs first and hands the decoded claims to the
user guard, whose `AuthError` propagates out through the outer wrapper. -/
def guarded_todo_endpoint {γ : Type} (permission : String) (decode : Decoder)
    (envAlg audience : String) (fetchResult : FetchResult)
    (headers : List (String × String)) (user_id : String)
    (handler : Claims → String → γ) : GuardResult γ × List AuthEvent :=
  let r := requires_auth_permission permission decode envAlg audience fetchResult
    (fun payload => requires_auth_user handler payload user_id) headers
  match r.1 with
  | .ok (.ok b) => (.ok b, r.2)
  | .ok (.error e) => (.authError e, r.2)
  | .authError e => (.authError e, r.2)
  | .transportError e => (.transportError e, r.2)
  | .typeErr m => (.typeErr m, r.2)

/-- The full `PATCH /api/v1/users/{user_id}/todos/{todo_id}` endpoint:
guards plus handler body. -/
def patch_todo_endpoint (decode : Decoder) (envAlg audience : String)
    (fetchResult : FetchResult) (headers : List (String × String))
    (user_id : String) (todo_id : Nat) (reqJson : Option JVal) (db : TodoDb) :
    GuardResult HandlerResult × List AuthEvent :=
  guarded_todo_endpoint "write:own-todos" decode envAlg audience fetchResult headers user_id
    (fun _payload uid => patch_todo db uid todo_id reqJson)

/-- The full `DELETE /api/v1/users/{user_id}/todos/{todo_id}` endpoint:
guards plus handler body. -/
def delete_todo_endpoint (decode : Decoder) (envAlg audience : String)
    (fetchResult : FetchResult) (headers : List (String × String))
    (user_id : String) (todo_id : Nat) (db : TodoDb) :
    GuardResult HandlerResult × List AuthEvent :=
  guarded_todo_endpoint "write:own-todos" decode envAlg audience fetchResult headers user_id
    (fun _payload uid => delete_todo db uid todo_id)


/-! ## Helper lemmas -/

theorem pyEqStr_iff (s : String) (v : JVal) : pyEqStr s v = true ↔ v = JVal.str s := by
  cases v <;> simp [pyEqStr] <;> exact eq_comm

theorem find?_field_eq_none {β : Type} (kvs : List (String × β)) (k : String)
    (h : ∀ v, (k, v) ∉ kvs) : kvs.find? (fun kv => kv.1 == k) = none := by
  rw [List.find?_eq_none]
  rintro ⟨k2, v⟩ hmem hbeq
  have hk : k2 = k := by simpa using hbeq
  subst hk
  exact h v hmem

theorem jsonGet_eq_none_of_no_field (kvs : List (String × JVal)) (k : String)
    (h : ∀ v, (k, v) ∉ kvs) : jsonGet kvs k = none := by
  simp [jsonGet, find?_field_eq_none kvs k h]

theorem listContainsSub_nil (l : List Char) : listContainsSub [] l = true := by
  induction l with
  | nil => rfl
  | cons c rest ih => simp [listContainsSub, listStartsWith]

theorem pyInStr_nil (s : String) : pyInStr "" s = true :=
  listContainsSub_nil s.data

theorem check_permissions_ok_val (permission : String) (payload : Claims) (b : Bool)
    (h : check_permissions permission payload = .ok b) : b = true := by
  unfold check_permissions at h
  split at h
  · simp at h
  · split at h
    · simp at h
    · simp at h
    · exact (Except.ok.inj h).symm

/-! ## C4: ownership check -/

/-- C4: `check_user_id` raises `AuthError("Subject missing from payload")`
when the claims lack a `sub` field, raises a 401 `AuthError` whenever the
`sub` value is not exactly the string supplied in the path (no prefix,
suffix or case-insensitive matching), and returns success exactly when
`sub` is the supplied string. -/
theorem check_user_id_spec (user_id : String) (payload : Claims) :
    ((∀ v, ("sub", v) ∉ payload) →
      check_user_id user_id payload = .error ⟨"Subject missing from payload", 401⟩)
    ∧ (∀ v, jsonGet payload "sub" = some v → v ≠ JVal.str user_id →
        ∃ e, check_user_id user_id payload = .error e ∧ e.status_code = 401)
    ∧ (check_user_id user_id payload = .ok true ↔
        jsonGet payload "sub" = some (JVal.str user_id)) := by
  refine ⟨?_, ?_, ?_⟩
  · intro h
    simp [check_user_id, jsonGet_eq_none_of_no_field payload "sub" h]
  · intro v hv hne
    have hb : pyEqStr user_id v = false := by
      rw [Bool.eq_false_iff]
      intro hc
      exact hne ((pyEqStr_iff user_id v).mp hc)
    refine ⟨⟨s!"Request is not autheticated by user with id \"{user_id}\"", 401⟩, ?_, rfl⟩
    simp [check_user_id, hv, hb]
  · constructor
    · intro h
      cases hg : jsonGet payload "sub" with
      | none => simp [check_user_id, hg] at h
      | some v =>
        by_cases hb : pyEqStr user_id v = true
        · exact congrArg some ((pyEqStr_iff user_id v).mp hb)
        · simp [check_user_id, hg, Bool.eq_false_iff.mpr hb] at h
    · intro h
      simp [check_user_id, h, pyEqStr]

theorem check_user_id_spec_witness :
    ∃ e, check_user_id "auth0|abc" [("sub", JVal.str "auth0|xyz")] = Except.error e
      ∧ e.status_code = 401 :=
  (check_user_id_spec "auth0|abc" [("sub", JVal.str "auth0|xyz")]).2.1
    (JVal.str "auth0|xyz") rfl
    (by intro h; exact absurd (JVal.str.inj h) (by decide))

/-! ## C3: permission check -/

/-- C3 counterexample: a payload whose `permissions` field is present
with value JSON `null`.  The claim requires an error naming the required
permission here (the field is present, and the required string is not a
member of its value), but the code raises
`AuthError("Permissions missing from payload")`, whose reason does not
contain the required permission. -/
theorem check_permissions_counterexample :
    (([("permissions", JVal.null)] : Claims).map Prod.fst).contains "permissions" = true
    ∧ check_permissions "write:own-todos" [("permissions", JVal.null)]
        = .error (.auth ⟨"Permissions missing from payload", 401⟩)
    ∧ pyInStr "write:own-todos" "Permissions missing from payload" = false :=
  ⟨rfl, rfl, rfl⟩

/-- C3 (amended): `check_permissions` raises
`AuthError("Permissions missing from payload")` whenever the
`permissions` lookup yields nothing — the field is absent or its value is
JSON `null`, which `Mapping.get` cannot distinguish; when the lookup
yields a containment-supporting value (string, list or dict) that does
not contain the required string it raises an `AuthError` naming the
required permission; and it returns `True` exactly when the lookup yields
a value containing the required string. -/
theorem check_permissions_spec_amended (permission : String) (payload : Claims) :
    (jsonGet payload "permissions" = none →
      check_permissions permission payload
        = .error (.auth ⟨"Permissions missing from payload", 401⟩))
    ∧ (∀ v, jsonGet payload "permissions" = some v → pyIn permission v = some false →
        check_permissions permission payload
          = .error (.auth ⟨s!"Payload does not include the {permission} permission", 401⟩))
    ∧ (∀ v, jsonGet payload "permissions" = some v → pyIn permission v = some true →
        check_permissions permission payload = .ok true)
    ∧ (check_permissions permission payload = .ok true ↔
        ∃ v, jsonGet payload "permissions" = some v ∧ pyIn permission v = some true) := by
  refine ⟨?_, ?_, ?_, ?_, ?_⟩
  · intro h
    simp [check_permissions, h]
  · intro v hv hp
    simp [check_permissions, hv, hp]
  · intro v hv hp
    simp [check_permissions, hv, hp]
  · intro h
    cases hg : jsonGet payload "permissions" with
    | none => simp [check_permissions, hg] at h
    | some v =>
      cases hp : pyIn permission v with
      | none => simp [check_permissions, hg, hp] at h
      | some bb =>
        cases bb
        · simp [check_permissions, hg, hp] at h
        · exact ⟨v, hg ▸ rfl, hp⟩
  · rintro ⟨v, hv, hp⟩
    simp [check_permissions, hv, hp]

theorem check_permissions_spec_amended_witness :
    check_permissions "read:all-users" [("permissions", JVal.arr [JVal.str "read:all-users"])]
      = .ok true :=
  (check_permissions_spec_amended "read:all-users"
      [("permissions", JVal.arr [JVal.str "read:all-users"])]).2.2.1
    (JVal.arr [JVal.str "read:all-users"]) rfl rfl

/-! ## C10: string-valued permissions and generic containment -/

/-- C10: when the `permissions` value in the claims is a string, a
required permission succeeds exactly when it occurs as a contiguous
substring of that string; in particular the empty required string always
succeeds against a string-valued `permissions` field, because membership
is tested with the generic Python containment operator. -/
theorem check_permissions_substring (permission : String) (payload : Claims) (s : String)
    (h : jsonGet payload "permissions" = some (JVal.str s)) :
    (check_permissions permission payload = .ok true ↔ pyInStr permission s = true)
    ∧ (permission = "" → check_permissions permission payload = .ok true) := by
  constructor
  · constructor
    · intro hc
      cases hpi : pyInStr permission s
      · simp [check_permissions, h, pyIn, hpi] at hc
      · rfl
    · intro hi
      simp [check_permissions, h, pyIn, hi]
  · intro hp
    subst hp
    simp [check_permissions, h, pyIn, pyInStr_nil]

theorem check_permissions_substring_witness :
    check_permissions "write:own" [("permissions", JVal.str "read:all write:own-todos")] = .ok true
    ∧ check_permissions "" [("permissions", JVal.str "whatever")] = .ok true :=
  ⟨(check_permissions_substring "write:own"
        [("permissions", JVal.str "read:all write:own-todos")] "read:all write:own-todos"
        rfl).1.mpr rfl,
   (check_permissions_substring ""
        [("permissions", JVal.str "whatever")] "whatever" rfl).2 rfl⟩

/-! ## C5: token extraction -/

theorem headersGet_auth (headers : List (String × String)) :
    headersGet headers "authorization" = headersGet headers "Authorization" := rfl

theorem pyOrOptStr_some_same (v : String) : pyOrOptStr (some v) (some v) = some v := by
  cases hv : (v != "") <;> simp [pyOrOptStr, hv]

theorem get_token_auth_header_of_none (headers : List (String × String))
    (h : headersGet headers "Authorization" = none) :
    get_token_auth_header headers = .error ⟨"Authorization header missing", 401⟩ := by
  have h2 : headersGet headers "authorization" = none := (headersGet_auth headers).trans h
  simp [get_token_auth_header, pyOrOptStr, h, h2]

/-- C5: `get_token_auth_header` locates the `Authorization` header
case-insensitively; when it is absent it raises
`AuthError("Authorization header missing")`; when its value does not
split on whitespace into exactly two parts with the first part
case-insensitively equal to `bearer` it raises
`AuthError("Malformed Authorization header")`; otherwise it returns the
second part.  (The embedding is a pure function, so it has no side
effects by construction.) -/
theorem get_token_auth_header_spec :
    (∀ headers : List (String × String),
      (headersGet headers "Authorization" = none →
        get_token_auth_header headers = .error ⟨"Authorization header missing", 401⟩)
      ∧ (∀ v scheme credential, headersGet headers "Authorization" = some v →
          pySplit v = [scheme, credential] → strLower scheme = "bearer" →
          get_token_auth_header headers = .ok credential)
      ∧ (∀ v, headersGet headers "Authorization" = some v →
          (∀ scheme credential, pySplit v = [scheme, credential] → strLower scheme ≠ "bearer") →
          get_token_auth_header headers = .error ⟨"Malformed Authorization header", 401⟩))
    ∧ (∀ (name value : String) (tail : List (String × String)),
        strLower name = "authorization" →
        get_token_auth_header ((name, value) :: tail)
          = get_token_auth_header (("Authorization", value) :: tail)) := by
  constructor
  · intro headers
    refine ⟨get_token_auth_header_of_none headers, ?_, ?_⟩
    · intro v scheme credential hv hsplit hlow
      have h2 : headersGet headers "authorization" = some v := (headersGet_auth headers).trans hv
      have hb : (strLower scheme == "bearer") = true := by simp [hlow]
      simp [get_token_auth_header, hv, h2, pyOrOptStr_some_same, hsplit, hb]
    · intro v hv hbad
      have h2 : headersGet headers "authorization" = some v := (headersGet_auth headers).trans hv
      rcases hs : pySplit v with _ | ⟨s1, _ | ⟨s2, _ | ⟨s3, rest⟩⟩⟩
      · simp [get_token_auth_header, hv, h2, pyOrOptStr_some_same, hs]
      · simp [get_token_auth_header, hv, h2, pyOrOptStr_some_same, hs]
      · have hb : (strLower s1 == "bearer") = false := by
          rw [beq_eq_false_iff_ne]
          exact hbad s1 s2 hs
        simp [get_token_auth_header, hv, h2, pyOrOptStr_some_same, hs, hb]
      · simp [get_token_auth_header, hv, h2, pyOrOptStr_some_same, hs]
  · intro name value tail hname
    have hp1 : (strLower name == strLower "Authorization") = true := by rw [hname]; rfl
    have hp2 : (strLower name == strLower "authorization") = true := by rw [hname]; rfl
    have e1 : headersGet ((name, value) :: tail) "Authorization" = some value := by
      simp [headersGet, List.find?, hp1]
    have e2 : headersGet ((name, value) :: tail) "authorization" = some value := by
      simp [headersGet, List.find?, hp2]
    have e3 : headersGet (("Authorization", value) :: tail) "Authorization" = some value := by
      simp [headersGet, List.find?]
    have hsl : (strLower "Authorization" == strLower "authorization") = true := rfl
    have e4 : headersGet (("Authorization", value) :: tail) "authorization" = some value := by
      simp [headersGet, List.find?, hsl]
    unfold get_token_auth_header
    rw [e1, e2, e3, e4]

theorem get_token_auth_header_spec_witness :
    get_token_auth_header [("AUTHORIZATION", "Bearer tok123")] = .ok "tok123"
    ∧ get_token_auth_header [("Host", "example.com")]
        = .error ⟨"Authorization header missing", 401⟩ :=
  ⟨(get_token_auth_header_spec.1 [("AUTHORIZATION", "Bearer tok123")]).2.1
      "Bearer tok123" "Bearer" "tok123" rfl rfl rfl,
   (get_token_auth_header_spec.1 [("Host", "example.com")]).1 rfl⟩

/-! ## C1: key trial in verify_decode_jwt -/

theorem tryKeys_first_success (decode : Decoder) (algs : List String) (aud : String)
    (token : Token) (ks1 : List Key) (k : Key) (ks2 : List Key) (c : Claims)
    (h1 : ∀ k2 ∈ ks1, decode token algs aud k2 = none)
    (h2 : decode token algs aud k = some c) :
    tryKeys decode algs aud token (ks1 ++ k :: ks2) = .ok c := by
  induction ks1 with
  | nil => simp [tryKeys, h2]
  | cons a as ih =>
    have ha : decode token algs aud a = none := h1 a (List.mem_cons_self a as)
    simpa [tryKeys, ha] using ih (fun k2 hk2 => h1 k2 (List.mem_cons_of_mem a hk2))

theorem tryKeys_all_fail (decode : Decoder) (algs : List String) (aud : String)
    (token : Token) (keys : List Key)
    (h : ∀ k ∈ keys, decode token algs aud k = none) :
    tryKeys decode algs aud token keys = .error ⟨"Invalid token", 401⟩ := by
  induction keys with
  | nil => rfl
  | cons a as ih =>
    have ha : decode token algs aud a = none := h a (List.mem_cons_self a as)
    simpa [tryKeys, ha] using ih (fun k2 hk2 => h k2 (List.mem_cons_of_mem a hk2))

/-- C1: `verify_decode_jwt` tries the fetched keys in sequence with a
single-element allowed-algorithm list; the first key the decoder accepts
yields its decoded claims regardless of what the remaining keys would
do; when every key fails — in particular for the empty key set — it
raises `AuthError("Invalid token", 401)`. -/
theorem verify_decode_jwt_spec (decode : Decoder) (envAlg audience : String) (token : Token) :
    (ALGORITHMS envAlg).length = 1
    ∧ (∀ (ks1 : List Key) (k : Key) (ks2 : List Key) (c : Claims),
        (∀ k2 ∈ ks1, decode token (ALGORITHMS envAlg) audience k2 = none) →
        decode token (ALGORITHMS envAlg) audience k = some c →
        verify_decode_jwt decode envAlg audience (.ok (ks1 ++ k :: ks2)) token = .claims c)
    ∧ (∀ keys : List Key,
        (∀ k ∈ keys, decode token (ALGORITHMS envAlg) audience k = none) →
        verify_decode_jwt decode envAlg audience (.ok keys) token
          = .authError ⟨"Invalid token", 401⟩)
    ∧ verify_decode_jwt decode envAlg audience (.ok []) token
        = .authError ⟨"Invalid token", 401⟩ := by
  refine ⟨rfl, ?_, ?_, rfl⟩
  · intro ks1 k ks2 c h1 h2
    simp [verify_decode_jwt, tryKeys_first_success decode _ audience token ks1 k ks2 c h1 h2]
  · intro keys h
    simp [verify_decode_jwt, tryKeys_all_fail decode _ audience token keys h]

/-- Sample decoder for witnesses: accepts exactly the key record
`{"kid": "k2"}` for the token `"tok"`. -/
def sampleDecode : Decoder := fun t _algs _aud k =>
  match t, k with
  | "tok", .obj [("kid", .str "k2")] => some [("sub", .str "u1")]
  | _, _ => none

theorem verify_decode_jwt_spec_witness :
    verify_decode_jwt sampleDecode "RS256" "aud"
        (.ok [.obj [("kid", .str "k1")], .obj [("kid", .str "k2")], .obj [("kid", .str "k3")]])
        "tok"
      = .claims [("sub", .str "u1")] :=
  (verify_decode_jwt_spec sampleDecode "RS256" "aud" "tok").2.1
    [.obj [("kid", .str "k1")]] (.obj [("kid", .str "k2")]) [.obj [("kid", .str "k3")]]
    [("sub", .str "u1")]
    (by
      intro k2 hk2
      rw [List.mem_singleton] at hk2
      subst hk2
      rfl)
    rfl

/-! ## C7: transport-level failures propagate unwrapped -/

/-- C7: a key-set fetch or parse failure escapes `verify_decode_jwt`
unwrapped — the outcome is a transport-level error exactly when the
fetch failed, and it is never converted into an `AuthError`. -/
theorem verify_decode_jwt_transport_spec (decode : Decoder) (envAlg audience : String)
    (token : Token) :
    (∀ e : String,
      verify_decode_jwt decode envAlg audience (.failure e) token = .transportError e)
    ∧ (∀ (fetchResult : FetchResult) (e : String),
        verify_decode_jwt decode envAlg audience fetchResult token = .transportError e ↔
          fetchResult = .failure e) := by
  refine ⟨fun e => rfl, ?_⟩
  intro fetchResult e
  constructor
  · intro h
    cases fetchResult with
    | failure e2 =>
      simp only [verify_decode_jwt] at h
      rw [VerifyOutcome.transportError.inj h]
    | ok keys =>
      exfalso
      simp only [verify_decode_jwt] at h
      cases htk : tryKeys decode (ALGORITHMS envAlg) audience token keys <;> rw [htk] at h <;> cases h
  · intro h
    subst h
    rfl

theorem verify_decode_jwt_transport_spec_witness :
    verify_decode_jwt sampleDecode "RS256" "aud" (.failure "URLError: connection refused") "tok"
      = .transportError "URLError: connection refused" :=
  (verify_decode_jwt_transport_spec sampleDecode "RS256" "aud" "tok").1
    "URLError: connection refused"

/-! ## C6: every AuthError is a 401 and the handler body is fixed -/

theorem tryKeys_error_eq (decode : Decoder) (algs : List String) (aud : String)
    (token : Token) (keys : List Key) (e : AuthError)
    (h : tryKeys decode algs aud token keys = .error e) : e = ⟨"Invalid token", 401⟩ := by
  induction keys with
  | nil => exact (Except.error.inj h).symm
  | cons a as ih =>
    unfold tryKeys at h
    cases hd : decode token algs aud a <;> rw [hd] at h
    · exact ih h
    · cases h

/-- C6: every `AuthError` produced by header extraction, verification,
permission checking or ownership checking carries status code 401, and
`handle_401` maps every `AuthError`, whatever its reason, to the fixed
401 response `{"success": false, "message": "Not authorized"}`. -/
theorem auth_error_status_spec :
    (∀ (headers : List (String × String)) (e : AuthError),
      get_token_auth_header headers = .error e → e.status_code = 401)
    ∧ (∀ (p : String) (payload : Claims) (e : AuthError),
        check_permissions p payload = .error (.auth e) → e.status_code = 401)
    ∧ (∀ (uid : String) (payload : Claims) (e : AuthError),
        check_user_id uid payload = .error e → e.status_code = 401)
    ∧ (∀ (decode : Decoder) (envAlg audience : String) (fetchResult : FetchResult)
        (t : Token) (e : AuthError),
        verify_decode_jwt decode envAlg audience fetchResult t = .authError e →
          e.status_code = 401)
    ∧ (∀ e : AuthError,
        handle_401 e
          = (.obj [("success", .bool false), ("message", .str "Not authorized")], 401)) := by
  refine ⟨?_, ?_, ?_, ?_, fun e => rfl⟩
  · intro headers e h
    unfold get_token_auth_header at h
    split at h
    · rw [← Except.error.inj h]
    · split at h
      · split at h
        · cases h
        · rw [← Except.error.inj h]
      · rw [← Except.error.inj h]
  · intro p payload e h
    unfold check_permissions at h
    split at h
    · exact congrArg AuthError.status_code (PyErr.auth.inj (Except.error.inj h)).symm
    · split at h
      · cases h
      · exact congrArg AuthError.status_code (PyErr.auth.inj (Except.error.inj h)).symm
      · cases h
  · intro uid payload e h
    unfold check_user_id at h
    split at h
    · exact congrArg AuthError.status_code (Except.error.inj h).symm
    · split at h
      · cases h
      · exact congrArg AuthError.status_code (Except.error.inj h).symm
  · intro decode envAlg audience fetchResult t e h
    cases fetchResult with
    | failure e2 => cases h
    | ok keys =>
      simp only [verify_decode_jwt] at h
      cases htk : tryKeys decode (ALGORITHMS envAlg) audience t keys with
      | ok c => simp [htk] at h
      | error e2 =>
        simp only [htk] at h
        rw [← VerifyOutcome.authError.inj h]
        rw [tryKeys_error_eq decode _ audience t keys e2 htk]

theorem auth_error_status_spec_witness :
    (∃ e : AuthError, get_token_auth_header [("Authorization", "Basic dXNlcg==")] = .error e
      ∧ e.status_code = 401)
    ∧ handle_401 ⟨"Invalid token", 401⟩
        = (.obj [("success", .bool false), ("message", .str "Not authorized")], 401) :=
  ⟨⟨⟨"Malformed Authorization header", 401⟩, rfl,
      auth_error_status_spec.1 [("Authorization", "Basic dXNlcg==")]
        ⟨"Malformed Authorization header", 401⟩ rfl⟩,
   auth_error_status_spec.2.2.2.2 ⟨"Invalid token", 401⟩⟩

/-! ## C2: the requires-permission guard -/

/-- C2: the `requires_auth_permission(P)` guard performs exactly the
sequence extract → verify (the only step consuming the key-set fetch) →
check permission → invoke the wrapped handler with the decoded claims
prepended, short-circuiting with the raised `AuthError` at the first
failing step; a request whose `Authorization` header is missing is
rejected before any key-set fetch and the handler is never invoked. -/
theorem requires_auth_permission_spec {α : Type} (permission : String) (decode : Decoder)
    (envAlg audience : String) (fetchResult : FetchResult) (f : Claims → α)
    (headers : List (String × String)) (r : GuardResult α) (tr : List AuthEvent)
    (h : requires_auth_permission permission decode envAlg audience fetchResult f headers
      = (r, tr)) :
    (tr = [] ∨ tr = [.tokenExtracted, .keySetFetched]
      ∨ tr = [.tokenExtracted, .keySetFetched, .tokenVerified]
      ∨ tr = [.tokenExtracted, .keySetFetched, .tokenVerified, .permissionChecked,
              .handlerInvoked])
    ∧ (∀ e, get_token_auth_header headers = .error e → r = .authError e ∧ tr = [])
    ∧ (headersGet headers "Authorization" = none →
        r = .authError ⟨"Authorization header missing", 401⟩
        ∧ AuthEvent.keySetFetched ∉ tr ∧ AuthEvent.handlerInvoked ∉ tr)
    ∧ (AuthEvent.keySetFetched ∈ tr ↔ ∃ t, get_token_auth_header headers = .ok t)
    ∧ (∀ t e, get_token_auth_header headers = .ok t →
        verify_decode_jwt decode envAlg audience fetchResult t = .authError e →
        r = .authError e ∧ tr = [.tokenExtracted, .keySetFetched])
    ∧ (∀ t payload e, get_token_auth_header headers = .ok t →
        verify_decode_jwt decode envAlg audience fetchResult t = .claims payload →
        check_permissions permission payload = .error (.auth e) →
        r = .authError e ∧ tr = [.tokenExtracted, .keySetFetched, .tokenVerified])
    ∧ (∀ a, r = .ok a → ∃ t payload,
        get_token_auth_header headers = .ok t
        ∧ verify_decode_jwt decode envAlg audience fetchResult t = .claims payload
        ∧ check_permissions permission payload = .ok true
        ∧ a = f payload
        ∧ tr = [.tokenExtracted, .keySetFetched, .tokenVerified, .permissionChecked,
                .handlerInvoked])
    ∧ (AuthEvent.handlerInvoked ∈ tr →
        ∃ payload, r = .ok (f payload) ∧ check_permissions permission payload = .ok true) := by
  cases hg : get_token_auth_header headers with
  | error e0 =>
    simp only [requires_auth_permission, hg] at h
    injection h with hr htr
    subst hr
    subst htr
    refine ⟨Or.inl rfl, ?_, ?_, by simp [hg], ?_, ?_, ?_, by simp⟩
    · intro e he
      obtain rfl : e0 = e := Except.error.inj he
      exact ⟨rfl, rfl⟩
    · intro hnone
      obtain rfl : e0 = ⟨"Authorization header missing", 401⟩ :=
        Except.error.inj (hg.symm.trans (get_token_auth_header_of_none headers hnone))
      exact ⟨rfl, by simp, by simp⟩
    · intro t e ht hv
      cases ht
    · intro t payload e ht hv hc
      cases ht
    · intro a ha
      cases ha
  | ok token =>
    simp only [requires_auth_permission, hg] at h
    have hnotnone : ¬ headersGet headers "Authorization" = none := by
      intro hnone
      cases hg.symm.trans (get_token_auth_header_of_none headers hnone)
    cases hv : verify_decode_jwt decode envAlg audience fetchResult token with
    | transportError e0 =>
      simp only [hv] at h
      injection h with hr htr
      subst hr
      subst htr
      refine ⟨Or.inr (Or.inl rfl), ?_, fun hn => absurd hn hnotnone, by simp [hg], ?_, ?_, ?_,
        by simp⟩
      · intro e he
        cases he
      · intro t e ht hverr
        obtain rfl : token = t := Except.ok.inj ht
        cases hv.symm.trans hverr
      · intro t payload e ht hv2 hc
        obtain rfl : token = t := Except.ok.inj ht
        cases hv.symm.trans hv2
      · intro a ha
        cases ha
    | authError e0 =>
      simp only [hv] at h
      injection h with hr htr
      subst hr
      subst htr
      refine ⟨Or.inr (Or.inl rfl), ?_, fun hn => absurd hn hnotnone, by simp [hg], ?_, ?_, ?_,
        by simp⟩
      · intro e he
        cases he
      · intro t e ht hverr
        obtain rfl : token = t := Except.ok.inj ht
        obtain rfl : e0 = e := VerifyOutcome.authError.inj (hv.symm.trans hverr)
        exact ⟨rfl, rfl⟩
      · intro t payload e ht hv2 hc
        obtain rfl : token = t := Except.ok.inj ht
        cases hv.symm.trans hv2
      · intro a ha
        cases ha
    | claims payload =>
      simp only [hv] at h
      cases hc : check_permissions permission payload with
      | error pe =>
        cases pe with
        | auth e0 =>
          simp only [hc] at h
          injection h with hr htr
          subst hr
          subst htr
          refine ⟨Or.inr (Or.inr (Or.inl rfl)), ?_, fun hn => absurd hn hnotnone, by simp [hg],
            ?_, ?_, ?_, by simp⟩
          · intro e he
            cases he
          · intro t e ht hverr
            obtain rfl : token = t := Except.ok.inj ht
            cases hv.symm.trans hverr
          · intro t p2 e ht hv2 hc2
            obtain rfl : token = t := Except.ok.inj ht
            obtain rfl : payload = p2 := VerifyOutcome.claims.inj (hv.symm.trans hv2)
            obtain rfl : e0 = e := PyErr.auth.inj (Except.error.inj (hc.symm.trans hc2))
            exact ⟨rfl, rfl⟩
          · intro a ha
            cases ha
        | typeErr m =>
          simp only [hc] at h
          injection h with hr htr
          subst hr
          subst htr
          refine ⟨Or.inr (Or.inr (Or.inl rfl)), ?_, fun hn => absurd hn hnotnone, by simp [hg],
            ?_, ?_, ?_, by simp⟩
          · intro e he
            cases he
          · intro t e ht hverr
            obtain rfl : token = t := Except.ok.inj ht
            cases hv.symm.trans hverr
          · intro t p2 e ht hv2 hc2
            obtain rfl : token = t := Except.ok.inj ht
            obtain rfl : payload = p2 := VerifyOutcome.claims.inj (hv.symm.trans hv2)
            cases Except.error.inj (hc.symm.trans hc2)
          · intro a ha
            cases ha
      | ok b =>
        have hb : b = true := check_permissions_ok_val permission payload b hc
        subst hb
        simp only [hc] at h
        injection h with hr htr
        subst hr
        subst htr
        refine ⟨Or.inr (Or.inr (Or.inr rfl)), ?_, fun hn => absurd hn hnotnone, by simp [hg],
          ?_, ?_, ?_, ?_⟩
        · intro e he
          cases he
        · intro t e ht hverr
          obtain rfl : token = t := Except.ok.inj ht
          cases hv.symm.trans hverr
        · intro t p2 e ht hv2 hc2
          obtain rfl : token = t := Except.ok.inj ht
          obtain rfl : payload = p2 := VerifyOutcome.claims.inj (hv.symm.trans hv2)
          cases hc.symm.trans hc2
        · intro a ha
          exact ⟨token, payload, rfl, hv, hc, (GuardResult.ok.inj ha).symm, rfl⟩
        · intro hmem
          exact ⟨payload, rfl, hc⟩

theorem requires_auth_permission_spec_witness :
    (requires_auth_permission "read:all-users" sampleDecode "RS256" "aud" (.ok [])
        (fun _ => (0 : Nat)) [("Host", "example.com")]).1
      = .authError ⟨"Authorization header missing", 401⟩
    ∧ (requires_auth_permission "read:all-users" sampleDecode "RS256" "aud" (.ok [])
        (fun _ => (0 : Nat)) [("Host", "example.com")]).2 = [] :=
  ((requires_auth_permission_spec "read:all-users" sampleDecode "RS256" "aud" (.ok [])
      (fun _ => (0 : Nat)) [("Host", "example.com")] _ _ rfl).2.1
    ⟨"Authorization header missing", 401⟩ rfl : _ ∧ _)

/-! ## Database lemmas for the todo handlers -/

theorem todoGet_persist (db : TodoDb) (tid : Nat) (t t2 : Todo)
    (h : todoGet db tid = some t) (hid : t2.id = t.id) :
    todoGet (todoPersist db t2) tid = some t2 := by
  induction db with
  | nil => simp [todoGet] at h
  | cons a as ih =>
    unfold todoGet at h ⊢
    unfold todoPersist
    rw [List.map_cons]
    by_cases ha : (a.id == tid) = true
    · rw [List.find?_cons_of_pos as ha] at h
      obtain rfl : a = t := Option.some.inj h
      have hid2 : (a.id == t2.id) = true := by rw [hid]; exact beq_self_eq_true a.id
      rw [if_pos hid2]
      refine List.find?_cons_of_pos _ ?_
      show (t2.id == tid) = true
      rw [hid]
      exact ha
    · rw [List.find?_cons_of_neg as ha] at h
      have htid0 := List.find?_some h
      have htid : (t.id == tid) = true := htid0
      have hne2 : ¬ (a.id == t2.id) = true := by
        intro hcontra
        rw [beq_iff_eq] at hcontra ha
        exact ha (by rw [hcontra, hid, beq_iff_eq.mp htid])
      rw [if_neg hne2]
      have ha2 : (a.id == tid) = false := Bool.eq_false_iff.mpr ha
      simp only [List.find?, ha2]
      exact ih h

theorem todoGet_delete_none (db : TodoDb) (t : Todo) :
    todoGet (todoDelete db t) t.id = none := by
  unfold todoGet todoDelete
  rw [List.find?_eq_none]
  intro x hx
  have hne : (x.id != t.id) = true := (List.mem_filter.mp hx).2
  rw [bne_iff_ne] at hne
  intro hbeq
  exact hne (beq_iff_eq.mp hbeq)

theorem truthy_ne_bool_false {v : JVal} (h : v.truthy = true) : v ≠ .bool false := by
  intro hh
  subst hh
  exact Bool.noConfusion h

/-- The guard chain of a todo write endpoint reduced on a request in
which extraction, verification, permission check and ownership check all
succeed: the handler runs on the decoded claims and the path user id. -/
theorem guarded_todo_endpoint_ok {γ : Type} (permission : String) (decode : Decoder)
    (envAlg audience : String) (fetchResult : FetchResult)
    (headers : List (String × String)) (user_id : String) (token : Token) (payload : Claims)
    (hTok : get_token_auth_header headers = .ok token)
    (hVer : verify_decode_jwt decode envAlg audience fetchResult token = .claims payload)
    (hPerm : check_permissions permission payload = .ok true)
    (hUser : check_user_id user_id payload = .ok true)
    (handler : Claims → String → γ) :
    guarded_todo_endpoint permission decode envAlg audience fetchResult headers user_id handler
      = (.ok (handler payload user_id),
         [.tokenExtracted, .keySetFetched, .tokenVerified, .permissionChecked,
          .handlerInvoked]) := by
  simp [guarded_todo_endpoint, requires_auth_permission, requires_auth_user,
    hTok, hVer, hPerm, hUser]

/-! ## C8: the write guards do not protect todos of other owners -/

/-- C8: a PATCH or DELETE request on
`/api/v1/users/{user_id}/todos/{todo_id}` that passes both guards (the
token subject equals the path `user_id` and the `write:own-todos`
permission is present) modifies or deletes the stored todo even when its
`owner_id` differs from the path `user_id`: the handlers look the todo up
by `todo_id` alone and never compare its `owner_id` with the path id. -/
theorem todo_write_ignores_owner
    (decode : Decoder) (envAlg audience : String) (fetchResult : FetchResult)
    (headers : List (String × String)) (user_id : String) (todo_id : Nat)
    (db : TodoDb) (todo : Todo) (token : Token) (payload : Claims)
    (body : List (String × JVal)) (newTitle : String)
    (hTok : get_token_auth_header headers = .ok token)
    (hVer : verify_decode_jwt decode envAlg audience fetchResult token = .claims payload)
    (hPerm : check_permissions "write:own-todos" payload = .ok true)
    (hSub : jsonGet payload "sub" = some (.str user_id))
    (hFind : todoGet db todo_id = some todo)
    (hOwner : todo.owner_id ≠ user_id)
    (hTitle : jsonGet body "title" = some (.str newTitle))
    (hNE : newTitle ≠ "") :
    (∃ t2 : Todo,
      (patch_todo_endpoint decode envAlg audience fetchResult headers user_id todo_id
          (some (.obj body)) db).1
        = .ok ⟨200, todoPersist db t2,
            some (.obj [("success", .bool true), ("user_id", .str t2.owner_id),
                        ("todo", t2.json)])⟩
      ∧ t2.id = todo.id ∧ t2.owner_id = todo.owner_id ∧ t2.title = .str newTitle
      ∧ todoGet (todoPersist db t2) todo_id = some t2)
    ∧ (delete_todo_endpoint decode envAlg audience fetchResult headers user_id todo_id db).1
        = .ok ⟨200, todoDelete db todo, some (.obj [("success", .bool true)])⟩
    ∧ todoGet (todoDelete db todo) todo_id = none := by
  have hUser : check_user_id user_id payload = .ok true := by
    simp [check_user_id, hSub, pyEqStr]
  have hbne : (newTitle != "") = true := by rw [bne_iff_ne]; exact hNE
  have hT : pyOrJ (some (JVal.str newTitle)) todo.title = JVal.str newTitle := by
    simp [pyOrJ, JVal.truthy, hbne]
  have hFind2 : List.find? (fun t => t.id == todo_id) db = some todo := hFind
  have htid0 := List.find?_some hFind2
  have htid : (todo.id == todo_id) = true := htid0
  refine ⟨⟨Todo.mk todo.id todo.owner_id (JVal.str newTitle) (pyOrJ (jsonGet body "done") todo.done), ?_, rfl, rfl, rfl, ?_⟩, ?_, ?_⟩
  · have h1 : patch_todo_endpoint decode envAlg audience fetchResult headers user_id todo_id
        (some (.obj body)) db
        = (.ok (patch_todo db user_id todo_id (some (.obj body))),
           [.tokenExtracted, .keySetFetched, .tokenVerified, .permissionChecked,
            .handlerInvoked]) := by
      unfold patch_todo_endpoint
      exact guarded_todo_endpoint_ok "write:own-todos" decode envAlg audience fetchResult
        headers user_id token payload hTok hVer hPerm hUser _
    rw [h1]
    have h2 : patch_todo db user_id todo_id (some (.obj body))
        = ⟨200,
           todoPersist db (Todo.mk todo.id todo.owner_id (JVal.str newTitle)
             (pyOrJ (jsonGet body "done") todo.done)),
           some (.obj [("success", .bool true), ("user_id", .str todo.owner_id),
                       ("todo", Todo.json (Todo.mk todo.id todo.owner_id (JVal.str newTitle)
                          (pyOrJ (jsonGet body "done") todo.done)))])⟩ := by
      simp [patch_todo, hFind, hTitle, hT]
    rw [h2]
  · exact todoGet_persist db todo_id todo _ hFind rfl
  · have h1 : delete_todo_endpoint decode envAlg audience fetchResult headers user_id todo_id db
        = (.ok (delete_todo db user_id todo_id),
           [.tokenExtracted, .keySetFetched, .tokenVerified, .permissionChecked,
            .handlerInvoked]) := by
      unfold delete_todo_endpoint
      exact guarded_todo_endpoint_ok "write:own-todos" decode envAlg audience fetchResult
        headers user_id token payload hTok hVer hPerm hUser _
    rw [h1]
    have h2 : delete_todo db user_id todo_id
        = ⟨200, todoDelete db todo, some (.obj [("success", .bool true)])⟩ := by
      simp [delete_todo, hFind]
    rw [h2]
  · rw [← beq_iff_eq.mp htid]
    exact todoGet_delete_none db todo

/-- Decoder for the witness of the write-endpoint theorems: accepts the
token `"tok"` with any key, yielding a payload owned by `u1` with the
`write:own-todos` permission. -/
def sampleDecodeW : Decoder := fun t _algs _aud _k =>
  if t == "tok" then
    some [("sub", .str "u1"), ("permissions", .arr [.str "write:own-todos"])]
  else none

theorem todo_write_ignores_owner_witness :
    (delete_todo_endpoint sampleDecodeW "RS256" "aud" (.ok [JVal.obj []])
        [("Authorization", "Bearer tok")] "u1" 1
        [⟨1, "u2", JVal.str "Buy milk", JVal.bool false⟩]).1
      = .ok ⟨200, [], some (.obj [("success", .bool true)])⟩ :=
  (todo_write_ignores_owner sampleDecodeW "RS256" "aud" (.ok [JVal.obj []])
      [("Authorization", "Bearer tok")] "u1" 1
      [⟨1, "u2", JVal.str "Buy milk", JVal.bool false⟩]
      ⟨1, "u2", JVal.str "Buy milk", JVal.bool false⟩ "tok"
      [("sub", .str "u1"), ("permissions", .arr [.str "write:own-todos"])]
      [("title", .str "Hacked")] "Hacked"
      rfl rfl rfl rfl rfl (by decide) rfl (by decide)).2.1

/-! ## C9: the falsy-coalescing merge in patch_todo -/

/-- C9: because `patch_todo` merges fields with Python `or`, a PATCH body
containing `"done": false` leaves a true `done` field true, an
empty-string title leaves the title unchanged, and no request body at
all can change `done` from true to false — after any PATCH request the
stored `done` is still truthy. -/
theorem patch_todo_done_spec (db : TodoDb) (user_id : String) (todo_id : Nat)
    (todo : Todo) (hFind : todoGet db todo_id = some todo)
    (hDone : todo.done = .bool true) :
    (∀ body : List (String × JVal), jsonGet body "done" = some (.bool false) →
      ∃ t2, todoGet (patch_todo db user_id todo_id (some (.obj body))).db todo_id = some t2
        ∧ t2.done = JVal.bool true
        ∧ (patch_todo db user_id todo_id (some (.obj body))).status = 200)
    ∧ (∀ body : List (String × JVal), jsonGet body "title" = some (.str "") →
        ∃ t2, todoGet (patch_todo db user_id todo_id (some (.obj body))).db todo_id = some t2
          ∧ t2.title = todo.title ∧ t2.done = pyOrJ (jsonGet body "done") todo.done)
    ∧ (∀ (reqJson : Option JVal) (t2 : Todo),
        todoGet (patch_todo db user_id todo_id reqJson).db todo_id = some t2 →
        t2.done.truthy = true ∧ t2.done ≠ JVal.bool false) := by
  have hbase : ∀ (res : HandlerResult), res.db = db →
      ∀ t2, todoGet res.db todo_id = some t2 →
      t2.done.truthy = true ∧ t2.done ≠ JVal.bool false := by
    intro res hdb t2 h
    rw [hdb] at h
    obtain rfl : todo = t2 := Option.some.inj (hFind.symm.trans h)
    rw [hDone]
    exact ⟨rfl, by simp⟩
  refine ⟨?_, ?_, ?_⟩
  · intro body hdone
    have hd : (patch_todo db user_id todo_id (some (.obj body))).db
        = todoPersist db (Todo.mk todo.id todo.owner_id
            (pyOrJ (jsonGet body "title") todo.title) todo.done) := by
      simp [patch_todo, hFind, hdone, pyOrJ, JVal.truthy]
    refine ⟨Todo.mk todo.id todo.owner_id (pyOrJ (jsonGet body "title") todo.title) todo.done,
      ?_, hDone, ?_⟩
    · rw [hd]
      exact todoGet_persist db todo_id todo _ hFind rfl
    · simp [patch_todo, hFind, hdone]
  · intro body htitle
    have hT : pyOrJ (some (JVal.str "")) todo.title = todo.title := by
      simp [pyOrJ, JVal.truthy]
    have hd : (patch_todo db user_id todo_id (some (.obj body))).db
        = todoPersist db (Todo.mk todo.id todo.owner_id todo.title
            (pyOrJ (jsonGet body "done") todo.done)) := by
      simp [patch_todo, hFind, htitle, hT]
    refine ⟨Todo.mk todo.id todo.owner_id todo.title (pyOrJ (jsonGet body "done") todo.done),
      ?_, rfl, rfl⟩
    rw [hd]
    exact todoGet_persist db todo_id todo _ hFind rfl
  · intro reqJson t2 h
    cases reqJson with
    | none => exact hbase _ (by simp [patch_todo, hFind]) t2 h
    | some j =>
      cases j with
      | null => exact hbase _ (by simp [patch_todo, hFind]) t2 h
      | bool b => exact hbase _ (by simp [patch_todo, hFind]) t2 h
      | int n => exact hbase _ (by simp [patch_todo, hFind]) t2 h
      | str s => exact hbase _ (by simp [patch_todo, hFind]) t2 h
      | arr xs => exact hbase _ (by simp [patch_todo, hFind]) t2 h
      | obj body =>
        by_cases hcond : ((jsonGet body "title").isNone && (jsonGet body "done").isNone) = true
        · exact hbase _ (by simp [patch_todo, hFind, hcond]) t2 h
        · have hcond2 : ((jsonGet body "title").isNone && (jsonGet body "done").isNone) = false :=
            Bool.eq_false_iff.mpr hcond
          have hd : (patch_todo db user_id todo_id (some (.obj body))).db
              = todoPersist db (Todo.mk todo.id todo.owner_id
                  (pyOrJ (jsonGet body "title") todo.title)
                  (pyOrJ (jsonGet body "done") todo.done)) := by
            simp [patch_todo, hFind, hcond2]
          rw [hd] at h
          obtain rfl : Todo.mk todo.id todo.owner_id
              (pyOrJ (jsonGet body "title") todo.title)
              (pyOrJ (jsonGet body "done") todo.done) = t2 :=
            Option.some.inj
              ((todoGet_persist db todo_id todo
                  (Todo.mk todo.id todo.owner_id (pyOrJ (jsonGet body "title") todo.title)
                    (pyOrJ (jsonGet body "done") todo.done)) hFind rfl).symm.trans h)
          have htr : (pyOrJ (jsonGet body "done") todo.done).truthy = true := by
            rw [hDone]
            cases hjd : jsonGet body "done" with
            | none => rfl
            | some v =>
              cases hvt : v.truthy with
              | true =>
                have hv : pyOrJ (some v) (JVal.bool true) = v := by simp [pyOrJ, hvt]
                rw [hv, hvt]
              | false =>
                have hv : pyOrJ (some v) (JVal.bool true) = JVal.bool true := by
                  simp [pyOrJ, hvt]
                rw [hv]
                rfl
          exact ⟨htr, truthy_ne_bool_false htr⟩

theorem patch_todo_done_spec_witness :
    ∃ t2, todoGet (patch_todo [⟨1, "u1", JVal.str "T", JVal.bool true⟩] "u1" 1
        (some (.obj [("done", JVal.bool false)]))).db 1 = some t2
      ∧ t2.done = JVal.bool true
      ∧ (patch_todo [⟨1, "u1", JVal.str "T", JVal.bool true⟩] "u1" 1
          (some (.obj [("done", JVal.bool false)]))).status = 200 :=
  (patch_todo_done_spec [⟨1, "u1", JVal.str "T", JVal.bool true⟩] "u1" 1
      ⟨1, "u1", JVal.str "T", JVal.bool true⟩ rfl rfl).1 [("done", JVal.bool false)] rfl

end TodoBackend
